import Mathlib

/-!
Shallow embedding of the equipment/request lifecycle core of the
police-inventory-system repository, and proofs about its specification.

Sources modelled:
* `backend/models/Equipment.js` — the equipment schema, the `issueToUser`
  and `returnFromUser` methods and the `age` virtual;
* `backend/models/Request.js` — the request schema, the `pre('validate')`
  identifier hook, the `pre('save')` history hook and the
  `approve`/`reject`/`complete` methods;
* the admin equipment routes (`GET/POST/PUT/DELETE /api/equipment...`), in
  particular the `PUT /api/equipment/:id` update handler;
* the officer routes (`/api/officer/...`), in particular the cancel route
  and the `POST /equipment-requests/from-pool` route.

Dates are epoch milliseconds modelled as `Int` (`Nat` where the source
only ever sees nonnegative values), MongoDB object ids as `Nat`, and
MongoDB documents as Lean structures.  Fallible operations return
`Except TxError _`; route handlers return a dedicated outcome type.
Definitions whose JavaScript source is not among the provided files are
modelled from the specification and say so in their doc comment.
-/

namespace HIMSP

/-- Milliseconds per day, the `1000 * 60 * 60 * 24` constant of the sources. -/
def msPerDay : Int := 86400000

/-- Typed error taxonomy of spec §7.  The JS sources signal these as thrown
`Error`s (`issueToUser`, `returnFromUser`) or as 4xx responses with a
message; each embedded operation tags its failure with the spec's error. -/
inductive TxError
  | ValidationError
  | NotFound
  | InvalidTransition
  | Conflict
  | Unauthorized
  | Unavailable
deriving DecidableEq, Repr

/-- Equipment status enum of the `Equipment.js` schema
(`'Available' | 'Issued' | 'Under Maintenance' | 'Retired'`). -/
inductive EqStatus
  | Available
  | Issued
  | UnderMaintenance
  | Retired
deriving DecidableEq, Repr

/-- The `issuedTo` custody sub-document of the equipment schema. -/
structure Custody where
  userId : Nat
  issuedDate : Int
  expectedReturnDate : Int
deriving DecidableEq, Repr

/-- One entry of the append-only `maintenanceHistory` array. -/
structure MaintenanceEntry where
  date : Int
  description : String
  cost : Int
  performedBy : String
deriving DecidableEq, Repr

/-- Equipment record (`Equipment.js` schema).  `category` and `condition`
are carried as strings — their enum validation lives in the routes and no
claim depends on it; presentational sub-documents (`specifications`,
`images`, `warrantyInfo`) are elided since no modelled operation reads or
writes them. -/
structure Equipment where
  name : String
  category : String
  model : String
  serialNumber : String
  manufacturer : String
  purchaseDate : Int
  cost : Int
  condition : String
  status : EqStatus
  location : String
  issuedTo : Option Custody
  maintenanceHistory : List MaintenanceEntry
  notes : String
  addedBy : Nat
  lastModifiedBy : Option Nat
deriving DecidableEq, Repr

/-- `equipmentSchema.methods.issueToUser` (Equipment.js 139–152): throws
(`InvalidTransition` in the spec taxonomy) unless the status is
`Available`; otherwise sets `Issued` and fills the custody block, the
expected return date defaulting to `now + 30` days when omitted. -/
def Equipment.issueToUser (e : Equipment) (userId : Nat) (now : Int)
    (expectedReturnDate : Option Int) : Except TxError Equipment :=
  if e.status ≠ EqStatus.Available then .error .InvalidTransition
  else .ok { e with
    status := .Issued,
    issuedTo := some {
      userId := userId,
      issuedDate := now,
      expectedReturnDate := expectedReturnDate.getD (now + 30 * msPerDay) } }

/-- `equipmentSchema.methods.returnFromUser` (Equipment.js 155–164): throws
unless the status is `Issued`; otherwise clears the custody block
(`issuedTo = undefined`) and sets `Available`. -/
def Equipment.returnFromUser (e : Equipment) : Except TxError Equipment :=
  if e.status ≠ EqStatus.Issued then .error .InvalidTransition
  else .ok { e with status := .Available, issuedTo := none }

/-- The `age` virtual (Equipment.js 130–136): the absolute millisecond
difference to the purchase date, rounded **up** to days
(`Math.ceil(diff / 86400000)`), then floor-divided by 365.  On the exact
integers of the embedding, `Math.ceil` of the division is rounding-up
division. -/
def Equipment.age (e : Equipment) (nowMs : Int) : Nat :=
  let diffTime : Nat := (nowMs - e.purchaseDate).natAbs
  let diffDays : Nat := (diffTime + 86399999) / 86400000
  diffDays / 365

/-- Body of the admin `PUT /api/equipment/:id` update route: every field is
optional and only provided fields are written.  `issuedTo` is not among
the updatable paths — the route can change `status` without touching the
custody block. -/
structure EquipmentUpdate where
  name : Option String := none
  category : Option String := none
  model : Option String := none
  manufacturer : Option String := none
  cost : Option Int := none
  location : Option String := none
  condition : Option String := none
  status : Option EqStatus := none
  notes : Option String := none
deriving DecidableEq, Repr

/-- The admin update route (`PUT /api/equipment/:id`, equipment routes
198–273): `findByIdAndUpdate` with the provided fields plus
`lastModifiedBy`. -/
def applyUpdate (e : Equipment) (u : EquipmentUpdate) (adminId : Nat) : Equipment :=
  { e with
    name := u.name.getD e.name,
    category := u.category.getD e.category,
    model := u.model.getD e.model,
    manufacturer := u.manufacturer.getD e.manufacturer,
    cost := u.cost.getD e.cost,
    location := u.location.getD e.location,
    condition := u.condition.getD e.condition,
    status := u.status.getD e.status,
    notes := u.notes.getD e.notes,
    lastModifiedBy := some adminId }

/-- The custody invariant of spec §3/§8: the status is `Issued` exactly
when the custody block is present. -/
def custodyInvariant (e : Equipment) : Prop :=
  e.status = EqStatus.Issued ↔ e.issuedTo.isSome = true

instance (e : Equipment) : Decidable (custodyInvariant e) := by
  unfold custodyInvariant; infer_instance

/-- Specification-side definition, following the words of claim C9: the
number of whole **calendar** years elapsed from a purchase date
`(py, pm, pd)` to a later date `(ty, tm, td)` — the year difference, less
one when the later date's month/day falls before the purchase
anniversary. -/
def specWholeYears (py pm pd ty tm td : Nat) : Nat :=
  (ty - py) - (if tm < pm ∨ (tm = pm ∧ td < pd) then 1 else 0)

/-- Request status enum of the `Request.js` schema. -/
inductive ReqStatus
  | Pending
  | Approved
  | Rejected
  | Completed
  | Cancelled
deriving DecidableEq, Repr

/-- Request type enum of the `Request.js` schema. -/
inductive ReqType
  | Issue
  | Return
  | Maintenance
deriving DecidableEq, Repr

/-- One entry of the `statusHistory` array. -/
structure HistoryEntry where
  status : ReqStatus
  changedBy : Nat
  changedDate : Int
  notes : Option String
deriving DecidableEq, Repr

/-- Request record (`Request.js` schema).  The schema declares
`equipmentId` with `required: true`; it is carried as an `Option` here
because the from-pool route constructs a document with `equipmentId:
null`, and the requiredness is enforced by `validateRequest` below, as
mongoose enforces it on save.  The schema has no `poolId`/`poolName`
paths, so (mongoose strict mode) a pool reference passed at construction
is dropped — accordingly no such field exists here. -/
structure Request where
  requestId : Option String
  requestedBy : Nat
  equipmentId : Option Nat
  requestType : ReqType
  status : ReqStatus := .Pending
  priority : String := "Medium"
  requestedDate : Int
  expectedReturnDate : Option Int
  reason : String
  adminNotes : Option String := none
  processedBy : Option Nat := none
  processedDate : Option Int := none
  approvedDate : Option Int := none
  completedDate : Option Int := none
  statusHistory : List HistoryEntry := []
deriving DecidableEq, Repr

/-- JS truthiness of an optional string (`if (notes) ...`): present and
nonempty. -/
def truthy : Option String → Bool
  | some s => s != ""
  | none => false

/-- The history entry pushed by the `pre('save')` hook (Request.js
138–143): the new status, `changedBy = processedBy || requestedBy`, the
current date and the current `adminNotes`. -/
def historyEntryOf (r : Request) (now : Int) : HistoryEntry := {
  status := r.status,
  changedBy := r.processedBy.getD r.requestedBy,
  changedDate := now,
  notes := r.adminNotes }

/-- The `pre('save')` hook (Request.js 136–146): when the document is not
new (`oldStatus = some _` carries the status the stored document had) and
the status path was modified — mongoose marks it modified only when set to
a **different** value — push exactly one history entry whose `changedBy`
is `processedBy || requestedBy` and whose `notes` is the current
`adminNotes`.  `oldStatus = none` models `isNew` (the initial save). -/
def saveRequest (oldStatus : Option ReqStatus) (r : Request) (now : Int) : Request :=
  match oldStatus with
  | none => r
  | some s =>
    if r.status ≠ s then
      { r with statusHistory := r.statusHistory ++ [historyEntryOf r now] }
    else r

/-- `requestSchema.methods.approve` (Request.js 149–157): **without any
status check** sets `Approved`, stamps `processedBy`, `processedDate`,
`approvedDate` and `adminNotes`, then saves. -/
def Request.approve (r : Request) (adminId : Nat) (notes : Option String) (now : Int) :
    Request :=
  saveRequest (some r.status)
    { r with
      status := .Approved,
      processedBy := some adminId,
      processedDate := some now,
      approvedDate := some now,
      adminNotes := notes } now

/-- `requestSchema.methods.reject` (Request.js 160–167): without any status
check sets `Rejected`, stamps the processed fields and stores the reason
in `adminNotes`, then saves. -/
def Request.reject (r : Request) (adminId : Nat) (reason : String) (now : Int) :
    Request :=
  saveRequest (some r.status)
    { r with
      status := .Rejected,
      processedBy := some adminId,
      processedDate := some now,
      adminNotes := some reason } now

/-- `requestSchema.methods.complete` (Request.js 170–177): without any
status check sets `Completed`, stamps `processedBy`/`completedDate`, and
overwrites `adminNotes` only when `notes` is truthy, then saves. -/
def Request.complete (r : Request) (adminId : Nat) (notes : Option String) (now : Int) :
    Request :=
  saveRequest (some r.status)
    { r with
      status := .Completed,
      processedBy := some adminId,
      completedDate := some now,
      adminNotes := if truthy notes then notes else r.adminNotes } now

/-- The officer cancel route (`PUT /api/officer/requests/:id/cancel`,
officer routes 205–246): 404 (`NotFound`) unless the request belongs to
the caller, 400 `'Only pending requests can be cancelled'`
(`InvalidTransition` in the spec taxonomy) unless `Pending`; otherwise
sets `Cancelled` and saves. -/
def cancelRequest (r : Request) (callerId : Nat) (now : Int) : Except TxError Request :=
  if r.requestedBy ≠ callerId then .error .NotFound
  else if r.status ≠ ReqStatus.Pending then .error .InvalidTransition
  else .ok (saveRequest (some r.status) { r with status := .Cancelled } now)

/-- JS `String.prototype.padStart(w, '0')`. -/
def pad (w : Nat) (s : String) : String :=
  if w ≤ s.length then s else String.mk (List.replicate (w - s.length) '0') ++ s

/-- Lexicographic comparison of character lists, the order in which MongoDB
sorts the string `requestId` field for `sort({requestId: -1})`. -/
def charListLt : List Char → List Char → Bool
  | [], [] => false
  | [], _ :: _ => true
  | _ :: _, [] => false
  | a :: as, b :: bs => if a < b then true else if b < a then false else charListLt as bs

/-- Lexicographic string comparison (MongoDB's sort order on `requestId`). -/
def strLt (s t : String) : Bool := charListLt s.data t.data

/-- Value of a list of decimal digit characters. -/
def digitsVal (l : List Char) : Nat := l.foldl (fun n c => n * 10 + (c.toNat - '0'.toNat)) 0

/-- JS `parseInt` on the strings this code feeds it: the value of the
leading decimal digits, `NaN` (here `none`) when there are none. -/
def jsParseInt (s : String) : Option Nat :=
  let ds := s.data.takeWhile Char.isDigit
  if ds.isEmpty then none else some (digitsVal ds)

/-- The day key `REQ-YYYYMMDD` built in the `pre('validate')` hook from
`getFullYear`, `getMonth() + 1` and `getDate`, the parts zero-padded to
two digits. -/
def dayKey (y m d : Nat) : String :=
  "REQ-" ++ toString y ++ pad 2 (toString m) ++ pad 2 (toString d)

/-- Prefix test modelling the anchored regular expression
`^REQ-YYYYMMDD` used to select the day's requests. -/
def jsStartsWith (s p : String) : Bool := p.data.isPrefixOf s.data

/-- One comparison step of the running maximum. -/
def maxStep (acc : Option String) (s : String) : Option String :=
  match acc with
  | none => some s
  | some m => if strLt m s then some s else some m

/-- Maximum of a list of strings in the sort order, modelling
`findOne({requestId: /^REQ-YYYYMMDD/}).sort({requestId: -1})`. -/
def maxByStr (l : List String) : Option String :=
  l.foldl maxStep none

/-- Split a character list at every occurrence of `c` (JS `split('-')`). -/
def splitOnChar (c : Char) : List Char → List (List Char)
  | [] => [[]]
  | x :: xs =>
    if x = c then [] :: splitOnChar c xs
    else
      match splitOnChar c xs with
      | [] => [[x]]
      | h :: t => (x :: h) :: t

/-- JS `requestId.split('-')`. -/
def jsSplitDash (s : String) : List String :=
  (splitOnChar '-' s.data).map String.mk

/-- The primary identifier scheme of `requestSchema.pre('validate')`
(Request.js 103–133), as a function of the identifiers already in the
store: filter the day's requests, take the last one in sort order, parse
the third dash-separated component of its id (`sequence` stays 1 when
there is none or it parses to `NaN`), and format
`REQ-YYYYMMDD-<String(sequence).padStart(4,'0')>`. -/
def generateRequestId (existing : List String) (y m d : Nat) : String :=
  let key := dayKey y m d
  let candidates := existing.filter (fun s => jsStartsWith s key)
  let sequence :=
    match maxByStr candidates with
    | none => 1
    | some last =>
      match jsParseInt ((jsSplitDash last).getD 2 "") with
      | some n => n + 1
      | none => 1
  key ++ "-" ++ pad 4 (toString sequence)

/-- Outcome of the `findOne` lookup inside the hook; `dbError` is the
`catch` branch of the `try`. -/
inductive LookupResult
  | ok (existing : List String)
  | dbError
deriving DecidableEq, Repr

/-- The full `pre('validate')` hook: an already-set `requestId` is kept;
otherwise the primary scheme runs on the lookup result, and when the
lookup fails the `REQ-<Date.now()>-<random>` fallback id is assigned —
the hook never fails the enclosing save. -/
def preValidateAssignId (r : Request) (lookup : LookupResult) (y m d nowMs : Nat)
    (rand : String) : Request :=
  match r.requestId with
  | some _ => r
  | none =>
    match lookup with
    | .ok existing => { r with requestId := some (generateRequestId existing y m d) }
    | .dbError => { r with requestId := some ("REQ-" ++ toString nowMs ++ "-" ++ rand) }

/-- Abbreviation for a primary-scheme identifier,
`REQ-YYYYMMDD-<4-digit sequence>`. -/
def fmtId (y m d seqNum : Nat) : String :=
  dayKey y m d ++ "-" ++ pad 4 (toString seqNum)

/-- Maximum of a list of naturals (`0` for the empty list). -/
def listMax (l : List Nat) : Nat := l.foldr max 0

/-- Two request creations racing on the same store: the hook reads the
store and computes the id in separate steps, so under the interleaving
read–read–insert–insert both creations observe the **same** store state;
this pair is the two identifiers they generate. -/
def concurrentPairIds (store : List String) (y m d : Nat) : String × String :=
  (generateRequestId store y m d, generateRequestId store y m d)

/-- Facts about a 4-padded decimal sequence number, established once by
bounded evaluation: it parses back (`parseInt`), has exactly 4
characters, contains no dash, and the formatting is strictly increasing
in the sort order up to 9999. -/
def pad4Good (n : Nat) : Prop :=
  jsParseInt (pad 4 (toString n)) = some n ∧
  (pad 4 (toString n)).length = 4 ∧
  ((pad 4 (toString n)).data.all (fun c => c != '-')) = true ∧
  (n + 1 ≤ 9999 → strLt (pad 4 (toString n)) (pad 4 (toString (n + 1))) = true)

instance (n : Nat) : Decidable (pad4Good n) := by
  unfold pad4Good; infer_instance

/-- Mongoose validation of the request schema (Request.js 3–91):
`equipmentId` is `required: true`, `reason` is required (nonempty), and
`expectedReturnDate` is required when the request type is `Issue`. -/
def validateRequest (r : Request) : Except TxError Request :=
  if r.equipmentId = none then .error .ValidationError
  else if r.reason = "" then .error .ValidationError
  else if r.requestType = ReqType.Issue ∧ r.expectedReturnDate = none then
    .error .ValidationError
  else .ok r

/-- Modelled from the spec: the `EquipmentPool` model file is not among the
provided sources — only its callers are.  Fields follow §3/§4.4: name,
category, model, totalQuantity, authorizedDesignations, plus the derived
count fields the routes read after calling `updateCounts`. -/
structure EquipmentPool where
  poolName : String
  category : String
  model : String
  totalQuantity : Nat
  authorizedDesignations : List String
  availableCount : Nat
  issuedCount : Nat
deriving DecidableEq, Repr

/-- Modelled from the spec: `updateCounts` (§4.4 `recomputeCounts`) —
`issuedCount` is the number of equipment records matching the pool's
model and category whose status is `Issued`, `availableCount` the
remainder of `totalQuantity`. -/
def EquipmentPool.updateCounts (p : EquipmentPool) (population : List Equipment) :
    EquipmentPool :=
  let issued := (population.filter
    (fun e => e.model == p.model && e.category == p.category &&
      e.status == EqStatus.Issued)).length
  { p with issuedCount := issued, availableCount := p.totalQuantity - issued }

/-- Caller identity supplied by the auth middleware. -/
structure UserCtx where
  userId : Nat
  designation : String
deriving DecidableEq, Repr

/-- Body of `POST /api/officer/equipment-requests/from-pool`. -/
structure PoolRequestBody where
  poolId : Nat
  poolName : String
  reason : String
  priority : Option String
  expectedDuration : Option Nat
deriving DecidableEq, Repr

/-- HTTP-level outcomes of the from-pool route, the failure responses
tagged by the spec §7 error they correspond to. -/
inductive RouteOutcome
  | created (r : Request)
  | validationFailed
  | poolNotFound
  | unavailable
  | unauthorized
  | serverError
deriving DecidableEq, Repr

/-- The from-pool request route (officer routes 800–868): express-validator
checks on `poolName`/`reason`, pool lookup (404), `updateCounts` and the
capacity check (400 `'No equipment available in this pool'` =
`Unavailable`), then the designation check (403 = `Unauthorized`), then
construction of a Request with `equipmentId: null` — the schema's pool
fields being dropped — and `save()`: the validate hook assigns the id,
mongoose validation runs, and a validation failure lands in the `catch`
as a 500 `serverError`. -/
def requestFromPool (user : UserCtx) (body : PoolRequestBody)
    (pool? : Option EquipmentPool) (population : List Equipment)
    (lookup : LookupResult) (y m d nowMs : Nat) (rand : String) (now : Int) :
    RouteOutcome :=
  if body.poolName = "" ∨ body.reason = "" then .validationFailed
  else
    match pool? with
    | none => .poolNotFound
    | some pool =>
      let pool := pool.updateCounts population
      if pool.availableCount = 0 then .unavailable
      else if user.designation ∉ pool.authorizedDesignations then .unauthorized
      else
        let r : Request := {
          requestId := none,
          requestedBy := user.userId,
          equipmentId := none,
          requestType := .Issue,
          status := .Pending,
          priority := body.priority.getD "Medium",
          requestedDate := now,
          expectedReturnDate :=
            match body.expectedDuration with
            | some dur => if dur = 0 then none else some (now + 7 * msPerDay)
            | none => none,
          reason := body.reason,
          adminNotes := none, processedBy := none, processedDate := none,
          approvedDate := none, completedDate := none, statusHistory := [] }
        match validateRequest (preValidateAssignId r lookup y m d nowMs rand) with
        | .error _ => .serverError
        | .ok r' => .created (saveRequest none r' now)

/-- Modelled from the spec: the admin route handler for request approval is
not among the provided sources (the admin frontend calls
`adminAPI.approveRequest`); per §4.2 it is `Pending → Approved` (else
`InvalidTransition`) and performs **no** Asset Registry mutation,
delegating the request-side stamping to the model method `approve`. -/
def adminApproveRequest (r : Request) (e : Equipment) (adminId : Nat)
    (notes : Option String) (now : Int) : Except TxError (Request × Equipment) :=
  if r.status ≠ ReqStatus.Pending then .error .InvalidTransition
  else .ok (r.approve adminId notes now, e)

/-- Modelled from the spec: the admin route handler for request completion
is not among the provided sources; per §4.2/§4.3 it is
`Approved → Completed` (else `InvalidTransition`) and, for an Issue-type
request, the point that transfers custody — it invokes the Asset Registry
issue transition (`issueToUser`) for the requester, with the request's
expected return date; for a Return-type request it invokes
`returnFromUser`.  The request-side stamping is the model method
`complete`. -/
def adminCompleteRequest (r : Request) (e : Equipment) (adminId : Nat)
    (notes : Option String) (now : Int) : Except TxError (Request × Equipment) :=
  if r.status ≠ ReqStatus.Approved then .error .InvalidTransition
  else
    match r.requestType with
    | .Issue => (e.issueToUser r.requestedBy now r.expectedReturnDate).map
        (fun e' => (r.complete adminId notes now, e'))
    | .Return => e.returnFromUser.map (fun e' => (r.complete adminId notes now, e'))
    | .Maintenance => .ok (r.complete adminId notes now, e)

/-- A concrete store of request identifiers — two of them belonging to
2026-01-01 — used by witnesses. -/
def existingSample : List String :=
  ["REQ-20260101-0003", "REQ-20251231-0042", "XZ", "REQ-20260101-0001"]

/-- A concrete available equipment record, used by witnesses. -/
def sampleEquipment : Equipment := {
  name := "Radio", category := "Communication", model := "R-100",
  serialNumber := "SN-1", manufacturer := "Acme", purchaseDate := 0,
  cost := 500, condition := "Good", status := .Available,
  location := "Armory", issuedTo := none, maintenanceHistory := [],
  notes := "", addedBy := 1, lastModifiedBy := none }

/-- A concrete pending Issue request, used by witnesses. -/
def pendingReq : Request := {
  requestId := none, requestedBy := 2, equipmentId := some 10,
  requestType := .Issue, status := .Pending, priority := "Medium",
  requestedDate := 0, expectedReturnDate := some 100, reason := "patrol",
  adminNotes := none, processedBy := none, processedDate := none,
  approvedDate := none, completedDate := none, statusHistory := [] }

/-- A concrete already-completed request, used by the C1 counterexample. -/
def completedReq : Request := {
  requestId := some "REQ-20260101-0001", requestedBy := 2, equipmentId := some 10,
  requestType := .Issue, status := .Completed, priority := "Medium",
  requestedDate := 0, expectedReturnDate := some 100, reason := "patrol",
  adminNotes := none, processedBy := some 1, processedDate := some 1,
  approvedDate := some 1, completedDate := some 2, statusHistory := [] }

/-! ### Helper lemmas -/

theorem saveRequest_status (o : Option ReqStatus) (r : Request) (now : Int) :
    (saveRequest o r now).status = r.status := by
  cases o with
  | none => rfl
  | some s => simp only [saveRequest]; split <;> rfl

theorem saveRequest_requestType (o : Option ReqStatus) (r : Request) (now : Int) :
    (saveRequest o r now).requestType = r.requestType := by
  cases o with
  | none => rfl
  | some s => simp only [saveRequest]; split <;> rfl

theorem saveRequest_requestedBy (o : Option ReqStatus) (r : Request) (now : Int) :
    (saveRequest o r now).requestedBy = r.requestedBy := by
  cases o with
  | none => rfl
  | some s => simp only [saveRequest]; split <;> rfl

theorem approve_status (r : Request) (a : Nat) (n : Option String) (t : Int) :
    (r.approve a n t).status = ReqStatus.Approved := by
  unfold Request.approve; rw [saveRequest_status]

theorem approve_requestType (r : Request) (a : Nat) (n : Option String) (t : Int) :
    (r.approve a n t).requestType = r.requestType := by
  unfold Request.approve; rw [saveRequest_requestType]

theorem approve_requestedBy (r : Request) (a : Nat) (n : Option String) (t : Int) :
    (r.approve a n t).requestedBy = r.requestedBy := by
  unfold Request.approve; rw [saveRequest_requestedBy]

theorem complete_status (r : Request) (a : Nat) (n : Option String) (t : Int) :
    (r.complete a n t).status = ReqStatus.Completed := by
  unfold Request.complete; rw [saveRequest_status]

/-! ### Claim C6 -/

/-- Claim C6: `issueToUser` succeeds exactly when the status is
`Available`, failing with `InvalidTransition` otherwise; on success the
status becomes `Issued` and the custody block holds the holder, the issue
date, and the expected return date — defaulted to the issue date plus 30
days when omitted — with no other field changed. -/
theorem C6_issue_guarded (e : Equipment) (uid : Nat) (now : Int) (erd : Option Int) :
    (e.status = EqStatus.Available →
      e.issueToUser uid now erd = .ok { e with
        status := .Issued,
        issuedTo := some {
          userId := uid,
          issuedDate := now,
          expectedReturnDate := erd.getD (now + 30 * msPerDay) } }) ∧
    (e.status ≠ EqStatus.Available →
      e.issueToUser uid now erd = .error .InvalidTransition) := by
  constructor
  · intro h
    simp [Equipment.issueToUser, h]
  · intro h
    simp [Equipment.issueToUser, h]

/-- Witness for C6 at a concrete available record and a concrete
non-available one. -/
theorem C6_issue_guarded_witness :
    sampleEquipment.issueToUser 5 0 none = .ok { sampleEquipment with
      status := .Issued,
      issuedTo := some {
        userId := 5,
        issuedDate := 0,
        expectedReturnDate := 0 + 30 * msPerDay } } ∧
    Equipment.issueToUser { sampleEquipment with status := .Retired } 5 0 none =
      .error .InvalidTransition := by
  constructor
  · exact (C6_issue_guarded sampleEquipment 5 0 none).1 rfl
  · exact (C6_issue_guarded { sampleEquipment with status := .Retired } 5 0 none).2
      (by decide)

/-! ### Claim C7 -/

/-- Claim C7: on an `Available` record, issuing to a holder and then
returning is a round trip — the issue yields an `Issued` record whose
custody holder is that holder, and the return yields the original record
with status `Available` and the custody block cleared, every other field
exactly as before the issue. -/
theorem C7_round_trip (e : Equipment) (uid : Nat) (now : Int) (erd : Option Int)
    (h : e.status = EqStatus.Available) :
    ∃ e1, e.issueToUser uid now erd = .ok e1 ∧
      e1.status = EqStatus.Issued ∧
      e1.issuedTo.map Custody.userId = some uid ∧
      e1.returnFromUser = .ok { e with status := .Available, issuedTo := none } := by
  refine ⟨{ e with
    status := .Issued,
    issuedTo := some {
      userId := uid,
      issuedDate := now,
      expectedReturnDate := erd.getD (now + 30 * msPerDay) } }, ?_, rfl, rfl, ?_⟩
  · simp [Equipment.issueToUser, h]
  · simp [Equipment.returnFromUser]

/-- Witness for C7 at a concrete available record. -/
theorem C7_round_trip_witness :
    ∃ e1, sampleEquipment.issueToUser 7 0 none = .ok e1 ∧
      e1.status = EqStatus.Issued ∧
      e1.issuedTo.map Custody.userId = some 7 ∧
      e1.returnFromUser =
        .ok { sampleEquipment with status := .Available, issuedTo := none } :=
  C7_round_trip sampleEquipment 7 0 none rfl

/-! ### Claim C9 -/

/-- Claim C9 counterexample: for equipment purchased 2024-01-01T00:00Z
(epoch ms 1704067200000), evaluated at 2024-12-31T00:00Z
(epoch ms 1735603200000) — 365 days later, but strictly less than one
full year after purchase, 2024 being a 366-day leap year — the code
computes age 1, while the number of whole calendar years elapsed is 0. -/
theorem C9_counterexample :
    Equipment.age { sampleEquipment with purchaseDate := 1704067200000 }
      1735603200000 = 1 ∧
    (1735603200000 : Int) < 1704067200000 + 366 * msPerDay ∧
    specWholeYears 2024 1 1 2024 12 31 = 0 := by
  refine ⟨by decide, by decide, by decide⟩

/-- Claim C9 amended: the `age` virtual divides the rounded-up day count
by 365 — a 365-day-year approximation rather than calendar whole years —
so it is 0 exactly when the evaluation date is at most 364 days after the
purchase date (and, per the counterexample, a date 365 days after
purchase already has age 1 even when it is strictly less than one
calendar year later). -/
theorem C9_age_floor (e : Equipment) (nowMs : Int) (h : e.purchaseDate ≤ nowMs) :
    (e.age nowMs = 0 ↔ nowMs - e.purchaseDate ≤ 364 * 86400000) := by
  simp only [Equipment.age]
  rw [Nat.div_div_eq_div_mul, Nat.div_eq_zero_iff (by norm_num)]
  omega

/-- Witness for the amended C9 at a concrete record and date. -/
theorem C9_age_floor_witness : Equipment.age sampleEquipment 100 = 0 :=
  (C9_age_floor sampleEquipment 100 (by decide)).mpr (by decide)

/-! ### Claim C10 -/

/-- Claim C10: a post-creation save that changes the status appends
exactly one history entry — recording the new status, `changedBy` equal
to `processedBy` when set and otherwise the original requester, and the
current admin notes — while the initial save at creation appends nothing;
the lifecycle operations only ever append to `statusHistory`. -/
theorem C10_history (r : Request) (adminId : Nat) (notes : Option String)
    (reason : String) (now : Int) :
    saveRequest none r now = r ∧
    (r.status ≠ .Approved →
      (r.approve adminId notes now).statusHistory = r.statusHistory ++
        [{ status := .Approved, changedBy := adminId, changedDate := now,
           notes := notes }]) ∧
    (r.status ≠ .Rejected →
      (r.reject adminId reason now).statusHistory = r.statusHistory ++
        [{ status := .Rejected, changedBy := adminId, changedDate := now,
           notes := some reason }]) ∧
    (r.status ≠ .Completed →
      (r.complete adminId notes now).statusHistory = r.statusHistory ++
        [{ status := .Completed, changedBy := adminId, changedDate := now,
           notes := if truthy notes then notes else r.adminNotes }]) ∧
    (∀ r', cancelRequest r adminId now = .ok r' →
      r'.statusHistory = r.statusHistory ++
        [{ status := .Cancelled, changedBy := r.processedBy.getD r.requestedBy,
           changedDate := now, notes := r.adminNotes }]) := by
  refine ⟨rfl, ?_, ?_, ?_, ?_⟩
  · intro h
    simp [Request.approve, saveRequest, historyEntryOf, Ne.symm h]
  · intro h
    simp [Request.reject, saveRequest, historyEntryOf, Ne.symm h]
  · intro h
    simp [Request.complete, saveRequest, historyEntryOf, Ne.symm h]
  · intro r' hr
    unfold cancelRequest at hr
    split at hr
    · exact absurd hr (by simp)
    · split at hr
      · exact absurd hr (by simp)
      · rename_i hstat
        rw [not_not] at hstat
        injection hr with hr
        subst hr
        simp [saveRequest, historyEntryOf, hstat]

/-- Witness for C10: approving a concrete pending request appends exactly
the entry recording the approval. -/
theorem C10_history_witness :
    (pendingReq.approve 1 (some "ok") 5).statusHistory =
      pendingReq.statusHistory ++
        [{ status := .Approved, changedBy := 1, changedDate := 5,
           notes := some "ok" }] :=
  (C10_history pendingReq 1 (some "ok") "n" 5).2.1 (by decide)

/-! ### Claim C1 -/

/-- Claim C1 counterexample: `approve` invoked on an already-`Completed`
request does not fail with `InvalidTransition` — the model method checks
nothing and simply rewrites the status to `Approved`. -/
theorem C1_counterexample :
    completedReq.status = ReqStatus.Completed ∧
    (completedReq.approve 7 none 5).status = ReqStatus.Approved := by
  exact ⟨rfl, by decide⟩

/-- Claim C1 amended: only the cancel operation is guarded — its route
rejects a non-`Pending` request (`InvalidTransition`) and leaves it
unchanged, succeeding exactly from `Pending` — whereas the model methods
`approve`, `reject` and `complete` perform no source-state check at all:
invoked on a request in any state they succeed and overwrite the status. -/
theorem C1_only_cancel_guarded (r : Request) (adminId callerId : Nat)
    (notes : Option String) (reason : String) (now : Int) :
    (r.approve adminId notes now).status = ReqStatus.Approved ∧
    (r.reject adminId reason now).status = ReqStatus.Rejected ∧
    (r.complete adminId notes now).status = ReqStatus.Completed ∧
    (r.requestedBy = callerId → r.status ≠ .Pending →
      cancelRequest r callerId now = .error .InvalidTransition) ∧
    (r.requestedBy = callerId → r.status = .Pending →
      ∃ r', cancelRequest r callerId now = .ok r' ∧ r'.status = .Cancelled) := by
  refine ⟨?_, ?_, ?_, ?_, ?_⟩
  · unfold Request.approve; rw [saveRequest_status]
  · unfold Request.reject; rw [saveRequest_status]
  · unfold Request.complete; rw [saveRequest_status]
  · intro hc hs
    simp [cancelRequest, hc, hs]
  · intro hc hs
    refine ⟨saveRequest (some r.status) { r with status := .Cancelled } now, ?_, ?_⟩
    · simp [cancelRequest, hc, hs]
    · rw [saveRequest_status]

/-- Witness for the amended C1 at concrete requests: the unguarded
approve, the guarded cancel failing on a completed request, and the
guarded cancel succeeding on a pending one. -/
theorem C1_only_cancel_guarded_witness :
    (completedReq.reject 1 "no" 5).status = ReqStatus.Rejected ∧
    cancelRequest completedReq 2 5 = .error .InvalidTransition ∧
    (∃ r', cancelRequest pendingReq 2 5 = .ok r' ∧ r'.status = .Cancelled) :=
  ⟨(C1_only_cancel_guarded completedReq 1 2 none "no" 5).2.1,
   (C1_only_cancel_guarded completedReq 1 2 none "no" 5).2.2.2.1 rfl (by decide),
   (C1_only_cancel_guarded pendingReq 1 2 none "no" 5).2.2.2.2 rfl rfl⟩

/-! ### Claim C3 -/

/-- Claim C3 counterexample: the administrative update route can set the
status field to `Issued` while leaving the (absent) custody block
untouched — the resulting record violates the custody invariant every
other transition maintains. -/
theorem C3_counterexample :
    custodyInvariant sampleEquipment ∧
    ¬ custodyInvariant (applyUpdate sampleEquipment { status := some .Issued } 9) := by
  exact ⟨by decide, by decide⟩

/-- Claim C3 amended: `issueToUser` and `returnFromUser` establish the
custody invariant on every success, and an administrative update that
does not touch the status field preserves it; but an update that sets the
status can break it (per the counterexample), since the route never
writes the custody block. -/
theorem C3_invariant_except_update (e : Equipment) (uid : Nat) (now : Int)
    (erd : Option Int) (u : EquipmentUpdate) (adminId : Nat) :
    (∀ e', e.issueToUser uid now erd = .ok e' → custodyInvariant e') ∧
    (∀ e', e.returnFromUser = .ok e' → custodyInvariant e') ∧
    (u.status = none → custodyInvariant e →
      custodyInvariant (applyUpdate e u adminId)) := by
  refine ⟨?_, ?_, ?_⟩
  · intro e' h
    unfold Equipment.issueToUser at h
    split at h
    · exact absurd h (by simp)
    · injection h with h
      subst h
      simp [custodyInvariant]
  · intro e' h
    unfold Equipment.returnFromUser at h
    split at h
    · exact absurd h (by simp)
    · injection h with h
      subst h
      simp [custodyInvariant]
  · intro hu hinv
    simpa [custodyInvariant, applyUpdate, hu] using hinv

/-- Witness for the amended C3: issuing a concrete available record yields
a record satisfying the invariant, and a status-free update preserves it. -/
theorem C3_invariant_except_update_witness :
    custodyInvariant { sampleEquipment with
      status := .Issued,
      issuedTo := some {
        userId := 5,
        issuedDate := 0,
        expectedReturnDate := 0 + 30 * msPerDay } } ∧
    custodyInvariant (applyUpdate sampleEquipment { location := some "HQ" } 9) :=
  ⟨(C3_invariant_except_update sampleEquipment 5 0 none { } 9).1 _ rfl,
   (C3_invariant_except_update sampleEquipment 5 0 none { location := some "HQ" } 9).2.2
     rfl (by decide)⟩

/-! ### Claim C2 -/

/-- Claim C2 (completion handler modelled from the spec, §4.2/§4.3): for
an Issue-type request on available equipment, approval leaves the
equipment exactly as it was, and completion of the approved request is
the point that transfers custody — afterwards the equipment is `Issued`
with the requester as custody holder and the request is `Completed`. -/
theorem C2_complete_transfers (r : Request) (e : Equipment) (a1 a2 : Nat)
    (n1 n2 : Option String) (t1 t2 : Int)
    (ht : r.requestType = .Issue) (hp : r.status = .Pending)
    (he : e.status = EqStatus.Available) :
    ∃ r1, adminApproveRequest r e a1 n1 t1 = .ok (r1, e) ∧
      ∃ r2 e2, adminCompleteRequest r1 e a2 n2 t2 = .ok (r2, e2) ∧
        r2.status = ReqStatus.Completed ∧
        e2.status = EqStatus.Issued ∧
        e2.issuedTo.map Custody.userId = some r.requestedBy := by
  refine ⟨r.approve a1 n1 t1, ?_, ?_⟩
  · simp [adminApproveRequest, hp]
  · have h1 : (r.approve a1 n1 t1).status = ReqStatus.Approved := approve_status _ _ _ _
    have h2 : (r.approve a1 n1 t1).requestType = ReqType.Issue := by
      rw [approve_requestType, ht]
    have h3 : (r.approve a1 n1 t1).requestedBy = r.requestedBy := approve_requestedBy _ _ _ _
    refine ⟨(r.approve a1 n1 t1).complete a2 n2 t2,
      { e with
        status := .Issued,
        issuedTo := some {
          userId := r.requestedBy,
          issuedDate := t2,
          expectedReturnDate :=
            (r.approve a1 n1 t1).expectedReturnDate.getD (t2 + 30 * msPerDay) } },
      ?_, complete_status _ _ _ _, rfl, rfl⟩
    unfold adminCompleteRequest
    rw [h2]
    simp [h1, h3, Equipment.issueToUser, he, Except.map]

/-- Witness for C2: the approve-then-complete scenario on a concrete
pending Issue request and a concrete available record. -/
theorem C2_complete_transfers_witness :
    ∃ r1, adminApproveRequest pendingReq sampleEquipment 1 none 5 = .ok (r1, sampleEquipment) ∧
      ∃ r2 e2, adminCompleteRequest r1 sampleEquipment 1 none 6 = .ok (r2, e2) ∧
        r2.status = ReqStatus.Completed ∧
        e2.status = EqStatus.Issued ∧
        e2.issuedTo.map Custody.userId = some pendingReq.requestedBy :=
  C2_complete_transfers pendingReq sampleEquipment 1 1 none none 5 6 rfl rfl rfl

/-! ### String-order and splitting helper lemmas -/

theorem strData_append (s t : String) : (s ++ t).data = s.data ++ t.data := rfl

theorem strMk_data (s : String) : String.mk s.data = s := rfl

theorem dataREQ : ("REQ-" : String).data = ['R', 'E', 'Q', '-'] := rfl

theorem charListLt_irrefl (l : List Char) : charListLt l l = false := by
  induction l with
  | nil => rfl
  | cons a as ih => simp [charListLt, ih]

theorem charListLt_trans : ∀ {a b c : List Char},
    charListLt a b = true → charListLt b c = true → charListLt a c = true := by
  intro a
  induction a with
  | nil =>
    intro b c hab hbc
    cases b with
    | nil => exact absurd hab (by simp [charListLt])
    | cons y ys =>
      cases c with
      | nil => exact absurd hbc (by simp [charListLt])
      | cons z zs => simp [charListLt]
  | cons x xs ih =>
    intro b c hab hbc
    cases b with
    | nil => exact absurd hab (by simp [charListLt])
    | cons y ys =>
      cases c with
      | nil => exact absurd hbc (by simp [charListLt])
      | cons z zs =>
        simp only [charListLt] at hab hbc ⊢
        rcases lt_trichotomy x y with hxy | hxy | hxy
        · rcases lt_trichotomy y z with hyz | hyz | hyz
          · simp [lt_trans hxy hyz]
          · subst hyz; simp [hxy]
          · rw [if_neg (lt_asymm hyz), if_pos hyz] at hbc
            exact absurd hbc (by simp)
        · subst hxy
          rw [if_neg (lt_irrefl x), if_neg (lt_irrefl x)] at hab
          rcases lt_trichotomy x z with hxz | hxz | hxz
          · simp [hxz]
          · subst hxz
            rw [if_neg (lt_irrefl x), if_neg (lt_irrefl x)] at hbc ⊢
            exact ih hab hbc
          · rw [if_neg (lt_asymm hxz), if_pos hxz] at hbc
            exact absurd hbc (by simp)
        · rw [if_neg (lt_asymm hxy), if_pos hxy] at hab
          exact absurd hab (by simp)

theorem charListLt_asymm {a b : List Char} (h : charListLt a b = true) :
    charListLt b a = false := by
  cases hba : charListLt b a with
  | false => rfl
  | true =>
    have htr := charListLt_trans h hba
    rw [charListLt_irrefl] at htr
    exact absurd htr (by simp)

theorem charListLt_append (p x y : List Char) :
    charListLt (p ++ x) (p ++ y) = charListLt x y := by
  induction p with
  | nil => rfl
  | cons a as ih => simp [charListLt, ih]

theorem strLt_trans {a b c : String} (h1 : strLt a b = true) (h2 : strLt b c = true) :
    strLt a c = true :=
  charListLt_trans h1 h2

theorem strLt_append (p x y : String) : strLt (p ++ x) (p ++ y) = strLt x y := by
  unfold strLt
  rw [strData_append, strData_append, charListLt_append]

theorem strLt_ne {a b : String} (h : strLt a b = true) : a ≠ b := by
  intro e
  subst e
  rw [show strLt a a = charListLt a.data a.data from rfl, charListLt_irrefl] at h
  exact absurd h (by simp)

theorem isPrefixOf_append_self (l t : List Char) : l.isPrefixOf (l ++ t) = true := by
  induction l with
  | nil => simp [List.isPrefixOf]
  | cons a as ih => simp [List.isPrefixOf, ih]

theorem splitOnChar_cons_of_ne (c x : Char) (xs : List Char) (hx : x ≠ c) :
    splitOnChar c (x :: xs) =
      match splitOnChar c xs with
      | [] => [[x]]
      | h :: t => (x :: h) :: t := by
  simp [splitOnChar, hx]

theorem splitOnChar_of_not_mem (c : Char) (l : List Char) (h : ∀ x ∈ l, x ≠ c) :
    splitOnChar c l = [l] := by
  induction l with
  | nil => rfl
  | cons x xs ih =>
    rw [splitOnChar_cons_of_ne c x xs (h x (by simp)),
      ih (fun a ha => h a (by simp [ha]))]

theorem splitOnChar_append (c : Char) (A rest : List Char) (h : ∀ x ∈ A, x ≠ c) :
    splitOnChar c (A ++ c :: rest) = A :: splitOnChar c rest := by
  induction A with
  | nil => simp [splitOnChar]
  | cons x xs ih =>
    rw [List.cons_append, splitOnChar_cons_of_ne c x _ (h x (by simp)),
      ih (fun a ha => h a (by simp [ha]))]

theorem splitOnChar_three (c : Char) (A B C : List Char)
    (hA : ∀ x ∈ A, x ≠ c) (hB : ∀ x ∈ B, x ≠ c) (hC : ∀ x ∈ C, x ≠ c) :
    splitOnChar c (A ++ c :: (B ++ c :: C)) = [A, B, C] := by
  rw [splitOnChar_append c A _ hA, splitOnChar_append c B _ hB,
    splitOnChar_of_not_mem c C hC]

theorem listMax_le (l : List Nat) (B : Nat) (h : ∀ k ∈ l, k ≤ B) : listMax l ≤ B := by
  induction l with
  | nil => simp [listMax]
  | cons a t ih =>
    rw [show listMax (a :: t) = max a (listMax t) from rfl]
    exact Nat.max_le.mpr ⟨h a (by simp), ih (fun k hk => h k (by simp [hk]))⟩

theorem listMax_append_singleton (l : List Nat) (a : Nat) :
    listMax (l ++ [a]) = max (listMax l) a := by
  induction l with
  | nil => simp [listMax]
  | cons b t ih =>
    show max b (listMax (t ++ [a])) = max (max b (listMax t)) a
    rw [ih, Nat.max_assoc]

/-! ### Facts about 4-padded sequence numbers, by bounded evaluation -/

set_option maxRecDepth 4000

theorem pad4_chunk0 : ∀ n, n < 1000 → pad4Good n := by decide

theorem pad4_chunk1 : ∀ n, n < 1000 → pad4Good (1000 + n) := by decide

theorem pad4_chunk2 : ∀ n, n < 1000 → pad4Good (2000 + n) := by decide

theorem pad4_chunk3 : ∀ n, n < 1000 → pad4Good (3000 + n) := by decide

theorem pad4_chunk4 : ∀ n, n < 1000 → pad4Good (4000 + n) := by decide

theorem pad4_chunk5 : ∀ n, n < 1000 → pad4Good (5000 + n) := by decide

theorem pad4_chunk6 : ∀ n, n < 1000 → pad4Good (6000 + n) := by decide

theorem pad4_chunk7 : ∀ n, n < 1000 → pad4Good (7000 + n) := by decide

theorem pad4_chunk8 : ∀ n, n < 1000 → pad4Good (8000 + n) := by decide

theorem pad4_chunk9 : ∀ n, n < 1000 → pad4Good (9000 + n) := by decide

theorem pad4Good_all (n : Nat) (h : n < 10000) : pad4Good n := by
  rcases Nat.lt_or_ge n 1000 with h1 | h1
  · exact pad4_chunk0 n h1
  rcases Nat.lt_or_ge n 2000 with h2 | h2
  · have e : 1000 + (n - 1000) = n := by omega
    exact e ▸ pad4_chunk1 (n - 1000) (by omega)
  rcases Nat.lt_or_ge n 3000 with h3 | h3
  · have e : 2000 + (n - 2000) = n := by omega
    exact e ▸ pad4_chunk2 (n - 2000) (by omega)
  rcases Nat.lt_or_ge n 4000 with h4 | h4
  · have e : 3000 + (n - 3000) = n := by omega
    exact e ▸ pad4_chunk3 (n - 3000) (by omega)
  rcases Nat.lt_or_ge n 5000 with h5 | h5
  · have e : 4000 + (n - 4000) = n := by omega
    exact e ▸ pad4_chunk4 (n - 4000) (by omega)
  rcases Nat.lt_or_ge n 6000 with h6 | h6
  · have e : 5000 + (n - 5000) = n := by omega
    exact e ▸ pad4_chunk5 (n - 5000) (by omega)
  rcases Nat.lt_or_ge n 7000 with h7 | h7
  · have e : 6000 + (n - 6000) = n := by omega
    exact e ▸ pad4_chunk6 (n - 6000) (by omega)
  rcases Nat.lt_or_ge n 8000 with h8 | h8
  · have e : 7000 + (n - 7000) = n := by omega
    exact e ▸ pad4_chunk7 (n - 7000) (by omega)
  rcases Nat.lt_or_ge n 9000 with h9 | h9
  · have e : 8000 + (n - 8000) = n := by omega
    exact e ▸ pad4_chunk8 (n - 8000) (by omega)
  have e : 9000 + (n - 9000) = n := by omega
  exact e ▸ pad4_chunk9 (n - 9000) (by omega)

theorem pad4_parse (n : Nat) (h : n < 10000) :
    jsParseInt (pad 4 (toString n)) = some n :=
  (pad4Good_all n h).1

theorem pad4_len (n : Nat) (h : n < 10000) : (pad 4 (toString n)).length = 4 :=
  (pad4Good_all n h).2.1

theorem pad4_nodash (n : Nat) (h : n < 10000) :
    ((pad 4 (toString n)).data.all (fun c => c != '-')) = true :=
  (pad4Good_all n h).2.2.1

theorem pad4_lt_succ (n : Nat) (h : n + 1 ≤ 9999) :
    strLt (pad 4 (toString n)) (pad 4 (toString (n + 1))) = true :=
  (pad4Good_all n (by omega)).2.2.2 h

theorem pad4_lt_of_lt : ∀ b a : Nat, a < b → b ≤ 9999 →
    strLt (pad 4 (toString a)) (pad 4 (toString b)) = true := by
  intro b
  induction b with
  | zero => intro a h _; omega
  | succ c ih =>
    intro a h hb
    rcases Nat.lt_or_eq_of_le (Nat.le_of_lt_succ h) with h' | h'
    · exact strLt_trans (ih a h' (by omega)) (pad4_lt_succ c hb)
    · subst h'
      exact pad4_lt_succ a hb

/-! ### The generator characterised -/

theorem fmtId_lt_of_lt (y m d : Nat) {a b : Nat} (hab : a < b) (hb : b ≤ 9999) :
    strLt (fmtId y m d a) (fmtId y m d b) = true := by
  unfold fmtId
  rw [strLt_append]
  exact pad4_lt_of_lt b a hab hb

theorem maxStep_fmt (y m d : Nat) {a b : Nat} (ha : a ≤ 9999) (hb : b ≤ 9999) :
    maxStep (some (fmtId y m d a)) (fmtId y m d b) = some (fmtId y m d (max a b)) := by
  unfold maxStep
  rcases Nat.lt_or_ge a b with h | h
  · simp [fmtId_lt_of_lt y m d h hb, Nat.max_eq_right (Nat.le_of_lt h)]
  · have hf : strLt (fmtId y m d a) (fmtId y m d b) = false := by
      rcases Nat.lt_or_eq_of_le h with h' | h'
      · exact charListLt_asymm (fmtId_lt_of_lt y m d h' ha)
      · rw [h']
        exact charListLt_irrefl _
    simp [hf, Nat.max_eq_left h]

theorem foldl_maxStep_fmt (y m d : Nat) :
    ∀ (l : List Nat) (a : Nat), a ≤ 9999 → (∀ k ∈ l, k ≤ 9999) →
    List.foldl maxStep (some (fmtId y m d a)) (l.map (fmtId y m d))
      = some (fmtId y m d (max a (listMax l))) := by
  intro l
  induction l with
  | nil =>
    intro a ha h
    simp [listMax]
  | cons b t ih =>
    intro a ha hb
    simp only [List.map_cons, List.foldl_cons]
    rw [maxStep_fmt y m d ha (hb b (by simp))]
    rw [ih (max a b) (Nat.max_le.mpr ⟨ha, hb b (by simp)⟩)
      (fun k hk => hb k (by simp [hk]))]
    rw [show listMax (b :: t) = max b (listMax t) from rfl, Nat.max_assoc]

theorem maxByStr_fmt (y m d : Nat) (b : Nat) (t : List Nat)
    (hb : ∀ k ∈ b :: t, k ≤ 9999) :
    maxByStr ((b :: t).map (fmtId y m d)) = some (fmtId y m d (listMax (b :: t))) := by
  unfold maxByStr
  simp only [List.map_cons, List.foldl_cons]
  rw [show maxStep none (fmtId y m d b) = some (fmtId y m d b) from rfl]
  rw [foldl_maxStep_fmt y m d t b (hb b (by simp)) (fun k hk => hb k (by simp [hk]))]
  rw [show listMax (b :: t) = max b (listMax t) from rfl]

theorem jsSplitDash_fmtId (y m d q : Nat)
    (hd : ((toString y ++ pad 2 (toString m) ++ pad 2 (toString d)).data.all
      (fun c => c != '-')) = true)
    (hq : q < 10000) :
    (jsSplitDash (fmtId y m d q)).getD 2 "" = pad 4 (toString q) := by
  have hB : ∀ x ∈ (toString y ++ pad 2 (toString m) ++ pad 2 (toString d)).data,
      x ≠ '-' := by
    intro x hx
    simpa using List.all_eq_true.mp hd x hx
  have hC : ∀ x ∈ (pad 4 (toString q)).data, x ≠ '-' := by
    intro x hx
    simpa using List.all_eq_true.mp (pad4_nodash q hq) x hx
  have hA : ∀ x ∈ ['R', 'E', 'Q'], x ≠ '-' := by decide
  have hdata : (fmtId y m d q).data = ['R', 'E', 'Q'] ++ '-' ::
      ((toString y ++ pad 2 (toString m) ++ pad 2 (toString d)).data ++ '-' ::
        (pad 4 (toString q)).data) := by
    simp [fmtId, dayKey, strData_append, dataREQ, List.append_assoc]
  unfold jsSplitDash
  rw [hdata, splitOnChar_three '-' _ _ _ hA hB hC]
  rfl

theorem generate_eq (existing : List String) (y m d : Nat) (seqs : List Nat)
    (hf : existing.filter (fun s => jsStartsWith s (dayKey y m d))
      = seqs.map (fmtId y m d))
    (hb : ∀ k ∈ seqs, 1 ≤ k ∧ k ≤ 9998)
    (hd : ((toString y ++ pad 2 (toString m) ++ pad 2 (toString d)).data.all
      (fun c => c != '-')) = true) :
    generateRequestId existing y m d = fmtId y m d (listMax seqs + 1) := by
  simp only [generateRequestId]
  rw [hf]
  cases seqs with
  | nil => rfl
  | cons b t =>
    have hM : listMax (b :: t) ≤ 9998 :=
      listMax_le _ _ (fun k hk => (hb k hk).2)
    rw [maxByStr_fmt y m d b t
      (fun k hk => Nat.le_trans (hb k hk).2 (by norm_num))]
    dsimp only
    rw [jsSplitDash_fmtId y m d _ hd (by omega), pad4_parse _ (by omega)]
    rfl

theorem jsStartsWith_fmtId (y m d q : Nat) :
    jsStartsWith (fmtId y m d q) (dayKey y m d) = true := by
  unfold jsStartsWith fmtId
  rw [strData_append, strData_append, List.append_assoc]
  exact isPrefixOf_append_self _ _

/-! ### Claim C5 -/

/-- Claim C5: on a store whose same-day identifiers are well-formed
(`REQ-YYYYMMDD-SEQ` with sequences between 1 and 9998), a request created
without a pre-set identifier receives `REQ-YYYYMMDD-SEQ` where `SEQ` is
the zero-padded successor of the highest same-day sequence (so the
counter restarts at 0001 on a day with no requests), the padded sequence
is exactly 4 digits, and when the primary scheme's lookup fails the
timestamp-plus-randomness fallback identifier is assigned instead of
failing the enclosing create. -/
theorem C5_identifier_scheme (existing : List String) (y m d nowMs : Nat)
    (seqs : List Nat) (r : Request) (rand : String)
    (hr : r.requestId = none)
    (hf : existing.filter (fun s => jsStartsWith s (dayKey y m d))
      = seqs.map (fmtId y m d))
    (hb : ∀ k ∈ seqs, 1 ≤ k ∧ k ≤ 9998)
    (hd : ((toString y ++ pad 2 (toString m) ++ pad 2 (toString d)).data.all
      (fun c => c != '-')) = true) :
    preValidateAssignId r (.ok existing) y m d nowMs rand
      = { r with requestId := some (fmtId y m d (listMax seqs + 1)) } ∧
    (pad 4 (toString (listMax seqs + 1))).length = 4 ∧
    preValidateAssignId r .dbError y m d nowMs rand
      = { r with requestId := some ("REQ-" ++ toString nowMs ++ "-" ++ rand) } := by
  refine ⟨?_, ?_, ?_⟩
  · simp only [preValidateAssignId, hr]
    rw [generate_eq existing y m d seqs hf hb hd]
  · have := listMax_le seqs 9998 (fun k hk => (hb k hk).2)
    exact pad4_len _ (by omega)
  · simp [preValidateAssignId, hr]

/-- Witness for C5 on a concrete store: the two 2026-01-01 identifiers
(sequences 3 and 1) yield `REQ-20260101-0004` for the next request, and
the fallback id is assigned on lookup failure. -/
theorem C5_identifier_scheme_witness :
    preValidateAssignId pendingReq (.ok existingSample) 2026 1 1 999 "k3x"
      = { pendingReq with requestId := some "REQ-20260101-0004" } ∧
    preValidateAssignId pendingReq .dbError 2026 1 1 999 "k3x"
      = { pendingReq with requestId := some "REQ-999-k3x" } := by
  have h := C5_identifier_scheme existingSample 2026 1 1 999 [3, 1] pendingReq "k3x"
    rfl (by decide) (by decide) (by decide)
  refine ⟨?_, ?_⟩
  · rw [h.1]
    rfl
  · rw [h.2.2]
    rfl

/-! ### Claim C4 -/

/-- Claim C4 counterexample: the hook reads the day's last identifier and
increments it in a separate step, so two creations that both read the
same store state — the racy interleaving of concurrent creation — generate
the **same** identifier: N = 2 concurrent creations yield 1 distinct
identifier, not 2.  (Serialized, the second creation would see the first
id and generate its successor.) -/
theorem C4_counterexample :
    generateRequestId [] 2026 1 1 = "REQ-20260101-0001" ∧
    generateRequestId ["REQ-20260101-0001"] 2026 1 1 = "REQ-20260101-0002" ∧
    concurrentPairIds [] 2026 1 1 = ("REQ-20260101-0001", "REQ-20260101-0001") := by
  refine ⟨by decide, by decide, by decide⟩

/-- Claim C4 amended: the generator **does** read the current same-day
maximum and increment it in a separate step; identifiers are distinct
only when creations are serialized — a creation that sees the previous
id in the store generates its successor, distinct from it — while two
creations reading the same store state (the racy interleaving) generate
identical identifiers, and the hook has no retry on a uniqueness
violation. -/
theorem C4_read_then_increment (existing : List String) (y m d : Nat)
    (seqs : List Nat)
    (hf : existing.filter (fun s => jsStartsWith s (dayKey y m d))
      = seqs.map (fmtId y m d))
    (hb : ∀ k ∈ seqs, 1 ≤ k ∧ k ≤ 9997)
    (hd : ((toString y ++ pad 2 (toString m) ++ pad 2 (toString d)).data.all
      (fun c => c != '-')) = true) :
    generateRequestId existing y m d = fmtId y m d (listMax seqs + 1) ∧
    generateRequestId (existing ++ [generateRequestId existing y m d]) y m d
      = fmtId y m d (listMax seqs + 2) ∧
    generateRequestId existing y m d
      ≠ generateRequestId (existing ++ [generateRequestId existing y m d]) y m d ∧
    (concurrentPairIds existing y m d).1 = (concurrentPairIds existing y m d).2 := by
  have hM : listMax seqs ≤ 9997 := listMax_le _ _ (fun k hk => (hb k hk).2)
  have h1 : generateRequestId existing y m d = fmtId y m d (listMax seqs + 1) :=
    generate_eq existing y m d seqs hf
      (fun k hk => ⟨(hb k hk).1, by have := (hb k hk).2; omega⟩) hd
  have hf2 : (existing ++ [generateRequestId existing y m d]).filter
      (fun s => jsStartsWith s (dayKey y m d))
      = (seqs ++ [listMax seqs + 1]).map (fmtId y m d) := by
    rw [List.filter_append, hf, h1, List.map_append]
    simp [List.filter, jsStartsWith_fmtId]
  have hbb : ∀ k ∈ seqs ++ [listMax seqs + 1], 1 ≤ k ∧ k ≤ 9998 := by
    intro k hk
    rcases List.mem_append.mp hk with h | h
    · exact ⟨(hb k h).1, by have := (hb k h).2; omega⟩
    · simp only [List.mem_singleton] at h
      subst h
      constructor <;> omega
  have hadd : listMax seqs + 1 + 1 = listMax seqs + 2 := by omega
  have h2 : generateRequestId (existing ++ [generateRequestId existing y m d]) y m d
      = fmtId y m d (listMax seqs + 2) := by
    have hgen := generate_eq _ y m d (seqs ++ [listMax seqs + 1]) hf2 hbb hd
    rw [hgen, listMax_append_singleton, Nat.max_eq_right (by omega), hadd]
  refine ⟨h1, h2, ?_, rfl⟩
  rw [h2, h1]
  exact strLt_ne (fmtId_lt_of_lt y m d (by omega) (by omega))

/-- Witness for the amended C4 at the empty store. -/
theorem C4_read_then_increment_witness :
    generateRequestId [] 2026 1 1 = fmtId 2026 1 1 (listMax [] + 1) ∧
    generateRequestId ([] ++ [generateRequestId [] 2026 1 1]) 2026 1 1
      = fmtId 2026 1 1 (listMax [] + 2) ∧
    generateRequestId [] 2026 1 1
      ≠ generateRequestId ([] ++ [generateRequestId [] 2026 1 1]) 2026 1 1 ∧
    (concurrentPairIds [] 2026 1 1).1 = (concurrentPairIds [] 2026 1 1).2 :=
  C4_read_then_increment [] 2026 1 1 [] rfl (by simp) (by decide)

/-! ### Claim C8 -/

/-- Claim C8 (code bug): at an input satisfying every precondition of the
claim — the pool exists, has free capacity, and the requester's
designation is authorized — the route still cannot create a request: the
document it builds carries `equipmentId: null` while the request schema
declares `equipmentId` required (and has no pool-reference path at all),
so the save fails schema validation and the route answers with a 500
server error instead of persisting a Pending pool-referencing request. -/
theorem C8_pool_request_fails :
    requestFromPool
      { userId := 2, designation := "Officer" }
      { poolId := 1,
        poolName := "Radios",
        reason := "patrol",
        priority := none,
        expectedDuration := some 7 }
      (some {
        poolName := "Radios",
        category := "Communication",
        model := "R-100",
        totalQuantity := 5,
        authorizedDesignations := ["Officer"],
        availableCount := 0,
        issuedCount := 0 })
      [] (.ok []) 2026 1 1 999 "abc" 0 = .serverError := by
  decide

end HIMSP
